import Mathlib

/-!
Shallow embedding of the SOA (Safe Operating Area) rules engine of this
repository:
  src/src/soa_rules/soa_dsl_implementation.py   (static rule registry)
  src/src/soa_rules/corrected_tmaxfrac_analysis.py  (transient-time validator)
Python floats are modelled as rationals (ℚ), Python dicts as
insertion-ordered association lists, Python None-returning / raising code as
Option / Except.  Violation message strings are modelled as structured
records carrying the data interpolated into the Python message.
-/

/-- Python str.lower() on the ASCII rule data, written over the string's
character list so that ground instances evaluate. -/
def strLower (s : String) : String := ⟨s.data.map Char.toLower⟩

/-- A threshold table entry: a Python float or a Python string
(e.g. the sentinel "no-limit"). -/
inductive SOAValue where
  | num (q : ℚ)
  | str (s : String)
deriving DecidableEq

/-- Digit run to a natural number, as Python int parsing of a digit run. -/
def digitsToNat (cs : List Char) : ℕ :=
  cs.foldl (fun n c => n * 10 + (c.toNat - 48)) 0

/-- Split a character list at the first dot character. -/
def splitDot : List Char → List Char × Option (List Char)
  | [] => ([], none)
  | c :: rest =>
      if c = '.' then ([], some rest)
      else
        let r := splitDot rest
        (c :: r.1, r.2)

/-- Unsigned decimal literal, as accepted by Python float(): digits,
optionally with a dot; "1." and ".5" parse, "", "." and "1.2.3" do not.
(Exponent / inf / nan forms never occur in the rule data and are out of
scope.) -/
def parseUnsignedDec (cs : List Char) : Option ℚ :=
  match splitDot cs with
  | (ip, none) =>
      if !ip.isEmpty && ip.all Char.isDigit then some (digitsToNat ip : ℚ) else none
  | (ip, some fp) =>
      if fp.any (fun c => c == '.') then none
      else if (!ip.isEmpty || !fp.isEmpty) && ip.all Char.isDigit && fp.all Char.isDigit then
        some ((digitsToNat ip : ℚ) + (digitsToNat fp : ℚ) / (10 : ℚ) ^ fp.length)
      else none

/-- Python float(s) on a decimal literal with optional sign. -/
def parseFloat (s : String) : Option ℚ :=
  match s.toList with
  | '+' :: rest => parseUnsignedDec rest
  | '-' :: rest => (parseUnsignedDec rest).map Neg.neg
  | cs => parseUnsignedDec cs

/-- Python float(x) on a table value: floats pass through, strings are
parsed, failure (raising ValueError/TypeError) is none. -/
def tryFloatValue : SOAValue → Option ℚ
  | .num q => some q
  | .str s => parseFloat s

/-- Python float(limit) where limit may be Python None
(float(None) raises TypeError). -/
def tryFloat : Option SOAValue → Option ℚ
  | some v => tryFloatValue v
  | none => none

/-- startswith on character lists. -/
def startsWithChars : List Char → List Char → Bool
  | [], _ => true
  | _ :: _, [] => false
  | a :: as, b :: bs => a == b && startsWithChars as bs

/-- Python substring membership `needle in hay` on character lists. -/
def containsSub (needle : List Char) : List Char → Bool
  | [] => needle.isEmpty
  | c :: rest => startsWithChars needle (c :: rest) || containsSub needle rest

/-- Python `sub in s.lower()`. -/
def nameContains (s sub : String) : Bool :=
  containsSub sub.toList (strLower s).toList

/-- Severity enum of soa_dsl_implementation.py. -/
inductive Severity where
  | high | medium | low
deriving DecidableEq

def Severity.toStr : Severity → String
  | .high => "high"
  | .medium => "medium"
  | .low => "low"

/-- Python Severity(s) constructor: Option instead of raising ValueError. -/
def severityOfStr (s : String) : Option Severity :=
  if s = "high" then some .high
  else if s = "medium" then some .medium
  else if s = "low" then some .low
  else none

/-- ParameterType enum of soa_dsl_implementation.py. -/
inductive ParameterType where
  | voltage | current | temperature | general
deriving DecidableEq

def ParameterType.toStr : ParameterType → String
  | .voltage => "voltage"
  | .current => "current"
  | .temperature => "temperature"
  | .general => "general"

/-- Python ParameterType(s) constructor. -/
def ptypeOfStr (s : String) : Option ParameterType :=
  if s = "voltage" then some .voltage
  else if s = "current" then some .current
  else if s = "temperature" then some .temperature
  else if s = "general" then some .general
  else none

/-- ComparisonOperator enum (held only inside Condition records). -/
inductive ComparisonOperator where
  | lt | le | gt | ge | eq | ne
deriving DecidableEq

/-- Condition dataclass (attached to parameters, never evaluated). -/
structure Condition where
  parameter : String
  operator : ComparisonOperator
  value : SOAValue
  description : String := ""
deriving DecidableEq

/-- Association-list lookup, the model of Python dict indexing
(dict keys are unique, so first match is the entry). -/
def alookup {κ α : Type} [DecidableEq κ] (k : κ) : List (κ × α) → Option α
  | [] => none
  | kv :: rest => if kv.1 = k then some kv.2 else alookup k rest

/-- SOAParameter dataclass: a named quantity with a tmaxfrac → value table. -/
structure SOAParameter where
  name : String
  severity : Severity
  param_type : ParameterType
  unit : String
  values : List (ℚ × SOAValue)
  conditions : List Condition := []
  description : String := ""
deriving DecidableEq

/-- Python min(keys, key=lambda x: abs(x - t)) over the remaining entries,
carrying the running best; min keeps the earlier element on ties, so the
running best is replaced only on a strictly smaller distance. -/
def argminKey (t : ℚ) (best : ℚ × SOAValue) : List (ℚ × SOAValue) → ℚ × SOAValue
  | [] => best
  | kv :: rest => argminKey t (if |kv.1 - t| < |best.1 - t| then kv else best) rest

/-- SOAParameter.get_value_at_tmaxfrac: the exact entry if the key is
present, otherwise the entry at the key of minimal absolute distance
(first key wins ties), None (none) on an empty table. -/
def SOAParameter.get_value_at_tmaxfrac (p : SOAParameter) (t : ℚ) : Option SOAValue :=
  match alookup t p.values with
  | some v => some v
  | none =>
      match p.values with
      | [] => none
      | kv :: rest => some (argminKey t kv rest).2

/-- Python str(value).lower() == "no-limit" applied to an optional table
value: only a string value can match (str(None) and str(float) never do). -/
def isNoLimitOpt : Option SOAValue → Bool
  | some (.str s) => strLower s == "no-limit"
  | _ => false

/-- SOAParameter.is_no_limit. -/
def SOAParameter.is_no_limit (p : SOAParameter) (t : ℚ) : Bool :=
  isNoLimitOpt (p.get_value_at_tmaxfrac t)

/-- SOAParameter.validate_value: pass when unrestricted; else compare in the
direction inferred from the parameter name ("high"/"max" → upper bound,
"low"/"min" → lower bound, default upper); a limit that float() cannot
convert passes by default (the except branch). -/
def SOAParameter.validate_value (p : SOAParameter) (test_value : ℚ) (t : ℚ) : Bool :=
  let limit := p.get_value_at_tmaxfrac t
  if p.is_no_limit t then true
  else
    match tryFloat limit with
    | some limit_val =>
        if nameContains p.name "high" || nameContains p.name "max" then
          decide (test_value ≤ limit_val)
        else if nameContains p.name "low" || nameContains p.name "min" then
          decide (test_value ≥ limit_val)
        else
          decide (test_value ≤ limit_val)
    | none => true

/-- The data of the formatted Python violation string produced by
DeviceRules.validate_conditions
("param: value violates severity limit of limit unit at tmaxfrac=t"). -/
structure Violation where
  param_name : String
  test_value : ℚ
  severity : Severity
  limit : Option SOAValue
  unit : String
  tmaxfrac : ℚ
deriving DecidableEq

/-- DeviceRules dataclass. Python metadata is an opaque payload dict,
modelled as string pairs. -/
structure DeviceRules where
  device_type : String
  subcategory : String
  tmaxfrac_levels : List ℚ
  parameters : List (String × SOAParameter)
  metadata : List (String × String) := []
deriving DecidableEq

/-- DeviceRules.validate_conditions: walk the parameters in table order,
skip parameters without an observation, collect a Violation for each
observed value the parameter rejects. -/
def DeviceRules.validate_conditions (d : DeviceRules) (t : ℚ)
    (test_values : List (String × ℚ)) : List Violation :=
  d.parameters.filterMap (fun pv =>
    match alookup pv.1 test_values with
    | some tv =>
        if pv.2.validate_value tv t then none
        else some ⟨pv.1, tv, pv.2.severity, pv.2.get_value_at_tmaxfrac t, pv.2.unit, t⟩
    | none => none)

/-- One entry of the limits dict built by DeviceRules.get_parameter_limits. -/
structure ParamLimit where
  value : Option SOAValue
  unit : String
  severity : Severity
  ptype : ParameterType
  no_limit : Bool
deriving DecidableEq

/-- DeviceRules.get_parameter_limits. -/
def DeviceRules.get_parameter_limits (d : DeviceRules) (t : ℚ) :
    List (String × ParamLimit) :=
  d.parameters.map (fun pv =>
    (pv.1, ⟨pv.2.get_value_at_tmaxfrac t, pv.2.unit, pv.2.severity, pv.2.param_type,
            pv.2.is_no_limit t⟩))

/-- The engine's global_config dict: version, technology and the
temperature_scaling passthrough sub-dict (modelled as string pairs). -/
structure GlobalConfig where
  version : String
  technology : String
  temperature_scaling : List (String × String)
deriving DecidableEq

/-- SOARulesEngine state: device dict plus global config. -/
structure SOARulesEngine where
  devices : List (String × DeviceRules)
  global_config : GlobalConfig
deriving DecidableEq

/-- SOARulesEngine.__init__. -/
def SOARulesEngine.init : SOARulesEngine :=
  ⟨[], ⟨"1.0", "smos10hv", [("enabled", "true"), ("method", "tmaxfrac")]⟩⟩

/-- Python dict assignment self.devices[key] = rules: overwrite in place
when the key exists, append otherwise. -/
def upsert {α : Type} (k : String) (v : α) : List (String × α) → List (String × α)
  | [] => [(k, v)]
  | kv :: rest => if kv.1 = k then (k, v) :: rest else kv :: upsert k v rest

/-- SOARulesEngine.add_device. -/
def SOARulesEngine.add_device (e : SOARulesEngine) (device_key : String)
    (rules : DeviceRules) : SOARulesEngine :=
  { e with devices := upsert device_key rules e.devices }

/-- The compliance result dict of SOARulesEngine.check_soa_compliance. -/
structure ComplianceResult where
  device : String
  tmaxfrac : ℚ
  test_values : List (String × ℚ)
  violations : List Violation
  compliant : Bool
  limits : List (String × ParamLimit)
deriving DecidableEq

/-- SOARulesEngine.check_soa_compliance: the error dict for a missing
device key is modelled as Except.error. -/
def SOARulesEngine.check_soa_compliance (e : SOARulesEngine) (device_key : String)
    (t : ℚ) (test_values : List (String × ℚ)) : Except String ComplianceResult :=
  match alookup device_key e.devices with
  | none => .error ("Device " ++ device_key ++ " not found")
  | some d =>
      let vs := d.validate_conditions t test_values
      .ok ⟨device_key, t, test_values, vs, vs.isEmpty, d.get_parameter_limits t⟩

/-- One test scenario of generate_validation_report: the Python scenario
dict's optional tmaxfrac entry (default 0.1) and its remaining entries. -/
structure Scenario where
  tmaxfrac : Option ℚ
  observations : List (String × ℚ)
deriving DecidableEq

/-- The summary dict of generate_validation_report. -/
structure ReportSummary where
  total_scenarios : ℕ
  passed : ℕ
  failed : ℕ
deriving DecidableEq

/-- One per-scenario entry of the report's results list. -/
structure ScenarioResult where
  result : ComplianceResult
  scenario_id : ℕ
deriving DecidableEq

/-- The report dict of generate_validation_report. -/
structure ValidationReport where
  device : String
  summary : ReportSummary
  results : List ScenarioResult
deriving DecidableEq

/-- Python enumerate(...) starting at a given index. -/
def withIdx {α : Type} (i : ℕ) : List α → List (ℕ × α)
  | [] => []
  | a :: rest => (i, a) :: withIdx (i + 1) rest

/-- The loop body of generate_validation_report for one enumerated
scenario: the check_soa_compliance result (the device is known present)
tagged with scenario_id. -/
def scenarioStep (device_key : String) (d : DeviceRules) (isc : ℕ × Scenario) :
    ScenarioResult :=
  let t := isc.2.tmaxfrac.getD (1 / 10)
  let vs := d.validate_conditions t isc.2.observations
  ⟨⟨device_key, t, isc.2.observations, vs, vs.isEmpty, d.get_parameter_limits t⟩, isc.1⟩

/-- SOARulesEngine.generate_validation_report: the Python loop appends one
result per scenario in order and bumps passed/failed counters, expressed
as a map over the enumerated scenarios plus compliant counts. -/
def SOARulesEngine.generate_validation_report (e : SOARulesEngine)
    (device_key : String) (test_scenarios : List Scenario) :
    Except String ValidationReport :=
  match alookup device_key e.devices with
  | none => .error ("Device " ++ device_key ++ " not found")
  | some d =>
      let results := (withIdx 0 test_scenarios).map (scenarioStep device_key d)
      let passed := (results.filter (fun r => r.result.compliant)).length
      let failed := (results.filter (fun r => !r.result.compliant)).length
      .ok ⟨device_key, ⟨test_scenarios.length, passed, failed⟩, results⟩

/-!
Canonical interchange document (§6 of the spec; export_to_json /
load_from_json).  Every field the loader reads with dict.get is an Option;
a missing key is none.  The text-serialized tmaxfrac keys of
values.multi_level are represented by their parsed rational value, since
Python str(float) / float(str) round-trips the key exactly.
-/

/-- One parameter record of the interchange document. -/
structure ParamDoc where
  name : Option String
  severity : Option String
  ptype : Option String
  unit : Option String
  multi_level : Option (List (ℚ × SOAValue))
  description : Option String
deriving DecidableEq

/-- The multi_level sub-record of a device record. -/
structure MultiLevelDoc where
  enabled : Option Bool
  tmaxfrac_levels : Option (List ℚ)
deriving DecidableEq

/-- One device record of the interchange document. -/
structure DeviceDoc where
  device_type : Option String
  subcategory : Option String
  multi_level : Option MultiLevelDoc
  parameters : Option (List (String × ParamDoc))
  metadata : Option (List (String × String))
deriving DecidableEq

/-- The soa_rules record of the interchange document. -/
structure RulesDoc where
  version : Option String
  technology : Option String
  global_config : Option GlobalConfig
  devices : Option (List (String × DeviceDoc))
deriving DecidableEq

/-- The whole interchange document. -/
structure JsonDoc where
  soa_rules : Option RulesDoc
deriving DecidableEq

/-- Build one SOAParameter from a parameter record, as the loop body of
_load_device_from_dict.  Severity()/ParameterType() on an invalid string
raises ValueError, modelled as Except.error. -/
def loadParam (param_name : String) (pd : ParamDoc) : Except String SOAParameter :=
  match severityOfStr (pd.severity.getD "high"), ptypeOfStr (pd.ptype.getD "general") with
  | some sev, some pt =>
      .ok ⟨pd.name.getD param_name, sev, pt, pd.unit.getD "",
           pd.multi_level.getD [], [], pd.description.getD ""⟩
  | none, _ => .error "invalid severity value"
  | some _, none => .error "invalid parameter type value"

/-- The parameter loop of _load_device_from_dict, failing at the first bad
parameter record. -/
def loadParams : List (String × ParamDoc) → Except String (List (String × SOAParameter))
  | [] => .ok []
  | pv :: rest =>
      match loadParam pv.1 pv.2 with
      | .error e => .error e
      | .ok p =>
          match loadParams rest with
          | .error e => .error e
          | .ok ps => .ok ((pv.1, p) :: ps)

/-- SOARulesEngine._load_device_from_dict: every missing field defaults
(device_type "unknown", subcategory "general", absent multi_level /
tmaxfrac_levels → [], absent parameters → no parameters, absent
metadata → empty), then add_device. -/
def load_device_from_dict (e : SOARulesEngine) (device_key : String)
    (dd : DeviceDoc) : Except String SOARulesEngine :=
  match loadParams (dd.parameters.getD []) with
  | .error err => .error err
  | .ok ps =>
      .ok (e.add_device device_key
        ⟨dd.device_type.getD "unknown", dd.subcategory.getD "general",
         (dd.multi_level.bind MultiLevelDoc.tmaxfrac_levels).getD [],
         ps, dd.metadata.getD []⟩)

/-- The device loop of load_from_json. -/
def loadDevices (e : SOARulesEngine) :
    List (String × DeviceDoc) → Except String SOARulesEngine
  | [] => .ok e
  | dv :: rest =>
      match load_device_from_dict e dv.1 dv.2 with
      | .error err => .error err
      | .ok e2 => loadDevices e2 rest

/-- The global_config update step of load_from_json
(self.global_config.update(...)). -/
def applyGlobalConfig (e : SOARulesEngine) : Option GlobalConfig → SOARulesEngine
  | some gc => { e with global_config := gc }
  | none => e

/-- SOARulesEngine.load_from_json: a document without soa_rules is a
no-op; an absent global_config or devices key is skipped silently. -/
def SOARulesEngine.load_from_json (e : SOARulesEngine) (doc : JsonDoc) :
    Except String SOARulesEngine :=
  match doc.soa_rules with
  | none => .ok e
  | some rd =>
      let e2 := applyGlobalConfig e rd.global_config
      match rd.devices with
      | none => .ok e2
      | some ds => loadDevices e2 ds

/-- The parameter export of export_to_json (conditions are not written). -/
def exportParam (p : SOAParameter) : ParamDoc :=
  ⟨some p.name, some p.severity.toStr, some p.param_type.toStr,
   some p.unit, some p.values, some p.description⟩

/-- The device export of export_to_json (metadata is not written). -/
def exportDevice (d : DeviceRules) : DeviceDoc :=
  ⟨some d.device_type, some d.subcategory,
   some ⟨some (decide (1 < d.tmaxfrac_levels.length)), some d.tmaxfrac_levels⟩,
   some (d.parameters.map (fun pv => (pv.1, exportParam pv.2))),
   none⟩

/-- SOARulesEngine.export_to_json. -/
def SOARulesEngine.export_to_json (e : SOARulesEngine) : JsonDoc :=
  ⟨some ⟨some e.global_config.version, some e.global_config.technology,
         some e.global_config,
         some (e.devices.map (fun dv => (dv.1, exportDevice dv.2)))⟩⟩

/-- What the round trip keeps of a parameter: everything but the
conditions, which export_to_json never writes. -/
def stripParam (p : SOAParameter) : SOAParameter :=
  { p with conditions := [] }

/-- What the round trip keeps of a device: everything but the metadata,
which export_to_json never writes. -/
def stripDevice (d : DeviceRules) : DeviceRules :=
  { d with metadata := [],
           parameters := d.parameters.map (fun pv => (pv.1, stripParam pv.2)) }

/-!
Transient-time validation (corrected_tmaxfrac_analysis.py).
-/

/-- TransientTimeLimit dataclass. -/
structure TransientTimeLimit where
  voltage_limit : SOAValue
  max_time_fraction : ℚ
  description : String
deriving DecidableEq

/-- TransientTimeLimit.is_violation: "no-limit" never violates, an
unconvertible limit never violates, the applied voltage must strictly
exceed the limit, tmaxfrac 0 is then an immediate violation, otherwise
the duration must exceed max_time_fraction * total time. -/
def TransientTimeLimit.is_violation (l : TransientTimeLimit)
    (applied_voltage time_duration total_transient_time : ℚ) : Bool :=
  match (match l.voltage_limit with
         | .str s => if strLower s == "no-limit" then none else parseFloat s
         | .num q => some q) with
  | none => false
  | some lv =>
      if decide (applied_voltage > lv) then
        if l.max_time_fraction = 0 then true
        else decide (time_duration > l.max_time_fraction * total_transient_time)
      else false

/-- TransientConstraint dataclass. -/
structure TransientConstraint where
  voltage_limit : SOAValue
  max_time_fraction : ℚ
  description : String := ""
deriving DecidableEq

/-- The data of the message string returned by
TransientConstraint.validate_transient. -/
inductive TransientViolation where
  | critical (limit : ℚ)
  | timeViolation (limit duration allowed frac : ℚ)
deriving DecidableEq

/-- TransientConstraint.validate_transient: None when the constraint does
not apply ("no-limit", unparseable limit, or applied value below the
threshold); with tmaxfrac 0 the critical message for any value at or above
the threshold; otherwise the time-violation message exactly when the
duration exceeds max_time_fraction * total_time. -/
def TransientConstraint.validate_transient (c : TransientConstraint)
    (applied_voltage duration total_time : ℚ) : Option TransientViolation :=
  match (match c.voltage_limit with
         | .str s => if strLower s == "no-limit" then none else parseFloat s
         | .num q => some q) with
  | none => none
  | some lv =>
      if decide (applied_voltage < lv) then none
      else if c.max_time_fraction = 0 then some (.critical lv)
      else
        let max_allowed_time := c.max_time_fraction * total_time
        if decide (duration > max_allowed_time) then
          some (.timeViolation lv duration max_allowed_time c.max_time_fraction)
        else none

/-- TransientAwareParameter dataclass (its severity and type are plain
strings in the source). -/
structure TransientAwareParameter where
  name : String
  severity : String
  param_type : String
  unit : String
  transient_constraints : List TransientConstraint
  description : String := ""
deriving DecidableEq

/-- A violation string of validate_transient_profile: the parameter name
prefixed to the constraint message. -/
structure NamedTViolation where
  param : String
  violation : TransientViolation
deriving DecidableEq

/-- total_time = max(end_time for ...) over a nonempty profile
(Python max = fold of binary max over the items). -/
def profileTotalTime : List (ℚ × ℚ × ℚ) → ℚ
  | [] => 0
  | s :: rest => rest.foldl (fun m s2 => max m s2.2.2) s.2.2

/-- The inner constraint loop of validate_transient_profile for one
profile sample (voltage, start, end). -/
def sampleViolations (p : TransientAwareParameter) (total : ℚ)
    (s : ℚ × ℚ × ℚ) : List NamedTViolation :=
  p.transient_constraints.filterMap (fun c =>
    (c.validate_transient s.1 (s.2.2 - s.2.1) total).map (fun v => ⟨p.name, v⟩))

/-- TransientAwareParameter.validate_transient_profile: an empty profile
returns no violations at once (before total_time is computed); otherwise
every sample is checked against every constraint with the full profile
total time, and the per-sample violation lists are concatenated in order. -/
def TransientAwareParameter.validate_transient_profile
    (p : TransientAwareParameter) (voltage_profile : List (ℚ × ℚ × ℚ)) :
    List NamedTViolation :=
  if voltage_profile.isEmpty then []
  else
    ((voltage_profile.map (sampleViolations p (profileTotalTime voltage_profile))).flatten)

/-- A device of the TransientSOAEngine (only its parameters dict is used). -/
structure TransientDevice where
  parameters : List (String × TransientAwareParameter)
deriving DecidableEq

/-- The result dict of validate_transient_simulation. -/
structure TransientResult where
  device : String
  violations : List NamedTViolation
  compliant : Bool
  total_violations : ℕ
deriving DecidableEq

/-- TransientSOAEngine state. -/
structure TransientSOAEngine where
  devices : List (String × TransientDevice)
deriving DecidableEq

/-- TransientSOAEngine.validate_transient_simulation: unknown device is an
error; profiles of parameters unknown to the device are skipped silently;
all remaining violations are concatenated. -/
def TransientSOAEngine.validate_transient_simulation (e : TransientSOAEngine)
    (device_key : String) (parameter_profiles : List (String × List (ℚ × ℚ × ℚ))) :
    Except String TransientResult :=
  match alookup device_key e.devices with
  | none => .error ("Device " ++ device_key ++ " not found")
  | some dev =>
      let all := (parameter_profiles.map (fun pr =>
        match alookup pr.1 dev.parameters with
        | some p => p.validate_transient_profile pr.2
        | none => [])).flatten
      .ok ⟨device_key, all, all.isEmpty, all.length⟩

/-- Specification predicate for the nearest-key rule: r is the table entry
whose key has minimal absolute distance to t, and every entry earlier in
the table order has strictly greater distance (so on ties the first entry
in table order wins). -/
def IsFirstMin (t : ℚ) (l : List (ℚ × SOAValue)) (r : ℚ × SOAValue) : Prop :=
  ∃ i, ∃ hi : i < l.length,
    r = l.get ⟨i, hi⟩ ∧
    (∀ kv ∈ l, |r.1 - t| ≤ |kv.1 - t|) ∧
    (∀ j, ∀ hj : j < i, |r.1 - t| < |(l.get ⟨j, Nat.lt_trans hj hi⟩).1 - t|)

/-- Every boolean indicator a caller can read off a compliance result:
the compliant flag, the emptiness of the violations list and the per-entry
no_limit flags of the limits dict. -/
def resultFlags (r : ComplianceResult) : Bool × Bool × List Bool :=
  (r.compliant, r.violations.isEmpty, r.limits.map (fun pl => pl.2.no_limit))

deriving instance DecidableEq for Except

/-!
Concrete fixtures used by counterexamples and witnesses, taken from the
repository's own demonstration data (vhigh_ds_on of the MOS transistor,
tables in volts, times in microseconds).
-/

/-- The nearest-level example table 0.1 → 5, 0.01 → 6, 0.0 → 7. -/
def c3param : SOAParameter :=
  ⟨"p", .high, .voltage, "V", [(1 / 10, .num 5), (1 / 100, .num 6), (0, .num 7)], [], ""⟩

/-- vhigh_ds_on with its 1.71 V / 1% transient constraint. -/
def c1c : TransientConstraint := ⟨.num (171 / 100), 1 / 100, ""⟩

def c1p : TransientAwareParameter :=
  ⟨"vhigh_ds_on", "high", "voltage", "V", [c1c], ""⟩

/-- A 100 µs window holding 1.75 V for its first 2 µs. -/
def c1vp : List (ℚ × ℚ × ℚ) := [(7 / 4, 0, 2), (1, 2, 100)]

/-- The 1.838 V / tmaxfrac 0 constraint. -/
def c2c : TransientConstraint := ⟨.num (1838 / 1000), 0, ""⟩

def c2p : TransientAwareParameter :=
  ⟨"vhigh_ds_on", "high", "voltage", "V", [c2c], ""⟩

/-- A 100 µs window reaching 1.85 V for only 0.1 µs. -/
def c2vp : List (ℚ × ℚ × ℚ) := [(37 / 20, 0, 1 / 10), (1, 1 / 10, 100)]

def c6param : SOAParameter :=
  ⟨"vhigh_ds_on", .high, .voltage, "V", [(0, .str "no-limit")], [], ""⟩

def c4param : SOAParameter :=
  ⟨"vhigh_ds_on", .high, .voltage, "V",
   [(1 / 10, .num (33 / 20)), (1 / 100, .num (171 / 100)), (0, .num (919 / 500))],
   [], "drain-source on-state limit"⟩

def c4dev : DeviceRules :=
  ⟨"mos_transistor", "symmetric_on_off", [1 / 10, 1 / 100, 0],
   [("vhigh_ds_on", c4param)], [("source", "excel_row_12")]⟩

def c4eng : SOARulesEngine := ⟨[("nmos_core", c4dev)], ⟨"1.0", "smos10hv", []⟩⟩

def c5docNoDevices : JsonDoc := ⟨some ⟨some "1.0", some "smos10hv", none, none⟩⟩

def c5ddNoParams : DeviceDoc := ⟨some "mos_transistor", some "symmetric_on_off", none, none, none⟩

def c5pdNoML : ParamDoc := ⟨some "vhigh_ds_on", none, none, some "V", none, none⟩

def c5docNoParams : JsonDoc := ⟨some ⟨none, none, none, some [("d", c5ddNoParams)]⟩⟩

def c5docNoML : JsonDoc :=
  ⟨some ⟨none, none, none,
    some [("d", ⟨some "mos_transistor", some "symmetric_on_off", none,
                 some [("vhigh_ds_on", c5pdNoML)], none⟩)]⟩⟩

/-- A parameter whose resolved threshold is the non-numeric,
non-sentinel string "tbd". -/
def c8pU : SOAParameter := ⟨"p", .high, .voltage, "V", [(0, .str "tbd")], [], ""⟩

/-- The same parameter shape with a genuinely satisfied numeric limit. -/
def c8pN : SOAParameter := ⟨"p", .high, .voltage, "V", [(0, .num 10)], [], ""⟩

def c8dU : DeviceRules := ⟨"mos_transistor", "symmetric_on_off", [0], [("p", c8pU)], []⟩

def c8dN : DeviceRules := ⟨"mos_transistor", "symmetric_on_off", [0], [("p", c8pN)], []⟩

def c8eU : SOARulesEngine := ⟨[("d", c8dU)], ⟨"1.0", "smos10hv", []⟩⟩

def c8eN : SOARulesEngine := ⟨[("d", c8dN)], ⟨"1.0", "smos10hv", []⟩⟩

def c9param : SOAParameter :=
  ⟨"vhigh_ds_on", .high, .voltage, "V", [(1 / 10, .num (33 / 20))], [], ""⟩

def c9dev : DeviceRules :=
  ⟨"mos_transistor", "symmetric_on_off", [1 / 10], [("vhigh_ds_on", c9param)], []⟩

def c9eng : SOARulesEngine := ⟨[("nmos_core", c9dev)], ⟨"1.0", "smos10hv", []⟩⟩

/-- One passing and one failing scenario. -/
def c9scenarios : List Scenario :=
  [⟨some (1 / 10), [("vhigh_ds_on", 3 / 2)]⟩, ⟨some (1 / 10), [("vhigh_ds_on", 2)]⟩]

def c10p : TransientAwareParameter :=
  ⟨"vhigh_ds_on", "high", "voltage", "V", [c1c, c2c], ""⟩

def c10eng : TransientSOAEngine := ⟨[("nmos_core", ⟨[("vhigh_ds_on", c10p)]⟩)]⟩

/-!
Helper lemmas, shared by the claim theorems below.
-/

theorem length_filter_add_length_filter_not {α : Type} (p : α → Bool) :
    ∀ l : List α, (l.filter p).length + (l.filter (fun x => !p x)).length = l.length := by
  intro l
  induction l with
  | nil => rfl
  | cons a l ih =>
      cases h : p a with
      | true =>
          rw [List.filter_cons, List.filter_cons, h]
          simp only [Bool.not_true]
          rw [if_pos trivial, if_neg (by decide)]
          simp only [List.length_cons]
          omega
      | false =>
          rw [List.filter_cons, List.filter_cons, h]
          simp only [Bool.not_false]
          rw [if_pos trivial, if_neg (by decide)]
          simp only [List.length_cons]
          omega

theorem flatten_of_all_nil {α : Type} :
    ∀ L : List (List α), (∀ l ∈ L, l = []) → L.flatten = [] := by
  intro L
  induction L with
  | nil => intro _; rfl
  | cons l L ih =>
      intro h
      have h1 : l = [] := h l (List.mem_cons_self l L)
      have h2 : L.flatten = [] := ih (fun x hx => h x (List.mem_cons_of_mem l hx))
      simp [h1, h2]

theorem length_withIdx {α : Type} : ∀ (n : ℕ) (l : List α), (withIdx n l).length = l.length := by
  intro n l
  induction l generalizing n with
  | nil => rfl
  | cons a l ih => simp [withIdx, ih]

theorem get_withIdx {α : Type} :
    ∀ (l : List α) (n i : ℕ) (hi : i < l.length) (hi2 : i < (withIdx n l).length),
      (withIdx n l).get ⟨i, hi2⟩ = (n + i, l.get ⟨i, hi⟩) := by
  intro l
  induction l with
  | nil => intro n i hi _; exact absurd hi (Nat.not_lt_zero i)
  | cons a l ih =>
      intro n i hi hi2
      cases i with
      | zero => simp [withIdx]
      | succ j =>
          have hj : j < l.length := Nat.lt_of_succ_lt_succ hi
          have hj2 : j < (withIdx (n + 1) l).length := by
            rw [length_withIdx]; exact hj
          show (withIdx (n + 1) l).get ⟨j, hj2⟩ = (n + (j + 1), l.get ⟨j, hj⟩)
          rw [ih (n + 1) j hj hj2]
          have hadd : n + 1 + j = n + (j + 1) := by omega
          rw [hadd]

theorem upsert_of_not_mem {α : Type} (k : String) (v : α) :
    ∀ l : List (String × α), (∀ kv ∈ l, kv.1 ≠ k) → upsert k v l = l ++ [(k, v)] := by
  intro l
  induction l with
  | nil => intro _; rfl
  | cons kv l ih =>
      intro h
      have hne : kv.1 ≠ k := h kv (List.mem_cons_self kv l)
      simp [upsert, hne, ih (fun x hx => h x (List.mem_cons_of_mem kv hx))]

theorem severityOfStr_toStr (s : Severity) : severityOfStr s.toStr = some s := by
  cases s <;> decide

theorem ptypeOfStr_toStr (s : ParameterType) : ptypeOfStr s.toStr = some s := by
  cases s <;> decide

theorem loadParam_exportParam (pn : String) (p : SOAParameter) :
    loadParam pn (exportParam p) = .ok (stripParam p) := by
  unfold loadParam exportParam
  simp only [Option.getD_some]
  rw [severityOfStr_toStr, ptypeOfStr_toStr]
  cases p
  rfl

theorem loadParams_export :
    ∀ ps : List (String × SOAParameter),
      loadParams (ps.map (fun pv => (pv.1, exportParam pv.2))) =
        .ok (ps.map (fun pv => (pv.1, stripParam pv.2))) := by
  intro ps
  induction ps with
  | nil => rfl
  | cons pv ps ih => simp [loadParams, loadParam_exportParam, ih]

theorem load_device_export (e : SOARulesEngine) (k : String) (d : DeviceRules) :
    load_device_from_dict e k (exportDevice d) = .ok (e.add_device k (stripDevice d)) := by
  unfold load_device_from_dict exportDevice
  simp only [Option.getD_some]
  rw [loadParams_export]
  cases d
  rfl

theorem loadDevices_export (gc : GlobalConfig) :
    ∀ (l : List (String × DeviceRules)) (acc : List (String × DeviceRules)),
      (l.map Prod.fst).Nodup →
      (∀ kv ∈ l, ∀ kv2 ∈ acc, kv2.1 ≠ kv.1) →
      loadDevices ⟨acc, gc⟩ (l.map (fun dv => (dv.1, exportDevice dv.2))) =
        .ok ⟨acc ++ l.map (fun dv => (dv.1, stripDevice dv.2)), gc⟩ := by
  intro l
  induction l with
  | nil => intro acc _ _; simp [loadDevices]
  | cons dv l ih =>
      intro acc hnd hdisj
      have hstep :
          load_device_from_dict ⟨acc, gc⟩ dv.1 (exportDevice dv.2) =
            .ok ⟨acc ++ [(dv.1, stripDevice dv.2)], gc⟩ := by
        rw [load_device_export]
        unfold SOARulesEngine.add_device
        have := upsert_of_not_mem dv.1 (stripDevice dv.2) acc
          (fun kv2 h2 => hdisj dv (List.mem_cons_self dv l) kv2 h2)
        simp [this]
      simp only [List.map_cons, loadDevices, hstep]
      have hnd2 : (l.map Prod.fst).Nodup := (List.nodup_cons.mp (by simpa using hnd)).2
      have hhead : dv.1 ∉ l.map Prod.fst := (List.nodup_cons.mp (by simpa using hnd)).1
      have hdisj2 : ∀ kv ∈ l, ∀ kv2 ∈ acc ++ [(dv.1, stripDevice dv.2)], kv2.1 ≠ kv.1 := by
        intro kv hkv kv2 hkv2
        rcases List.mem_append.mp hkv2 with h2 | h2
        · exact hdisj kv (List.mem_cons_of_mem dv hkv) kv2 h2
        · have : kv2 = (dv.1, stripDevice dv.2) := by simpa using h2
          rw [this]
          intro heq
          exact hhead (heq ▸ List.mem_map_of_mem Prod.fst hkv)
      rw [ih (acc ++ [(dv.1, stripDevice dv.2)]) hnd2 hdisj2]
      simp

theorem foldlMax_spec :
    ∀ (xs : List (ℚ × ℚ × ℚ)) (a : ℚ),
      a ≤ xs.foldl (fun m s2 => max m s2.2.2) a ∧
      (∀ s ∈ xs, s.2.2 ≤ xs.foldl (fun m s2 => max m s2.2.2) a) ∧
      (xs.foldl (fun m s2 => max m s2.2.2) a = a ∨
        ∃ s ∈ xs, xs.foldl (fun m s2 => max m s2.2.2) a = s.2.2) := by
  intro xs
  induction xs with
  | nil =>
      intro a
      refine ⟨le_refl a, ?_, Or.inl rfl⟩
      intro s hs
      cases hs
  | cons x xs ih =>
      intro a
      obtain ⟨h1, h2, h3⟩ := ih (max a x.2.2)
      simp only [List.foldl_cons]
      refine ⟨le_trans (le_max_left a x.2.2) h1, ?_, ?_⟩
      · intro s hs
        rcases List.mem_cons.mp hs with h | h
        · rw [h]
          exact le_trans (le_max_right a x.2.2) h1
        · exact h2 s h
      · rcases h3 with h | ⟨s, hs, heq⟩
        · rcases max_choice a x.2.2 with hm | hm
          · exact Or.inl (by rw [h, hm])
          · exact Or.inr ⟨x, List.mem_cons_self x xs, by rw [h, hm]⟩
        · exact Or.inr ⟨s, List.mem_cons_of_mem x hs, heq⟩

theorem argminKey_spec (t : ℚ) :
    ∀ (l : List (ℚ × SOAValue)) (b : ℚ × SOAValue),
      (argminKey t b l = b ∧ ∀ kv ∈ l, |b.1 - t| ≤ |kv.1 - t|) ∨
      (∃ i, ∃ hi : i < l.length,
        argminKey t b l = l.get ⟨i, hi⟩ ∧
        |(argminKey t b l).1 - t| < |b.1 - t| ∧
        (∀ kv ∈ l, |(argminKey t b l).1 - t| ≤ |kv.1 - t|) ∧
        (∀ j, ∀ hj : j < i, |(argminKey t b l).1 - t| < |(l.get ⟨j, Nat.lt_trans hj hi⟩).1 - t|)) := by
  intro l
  induction l with
  | nil =>
      intro b
      exact Or.inl ⟨rfl, by intro kv hkv; cases hkv⟩
  | cons kv l ih =>
      intro b
      by_cases hlt : |kv.1 - t| < |b.1 - t|
      · have hstep : argminKey t b (kv :: l) = argminKey t kv l := by
          simp [argminKey, hlt]
        rcases ih kv with ⟨heq, hmin⟩ | ⟨i, hi, heq, hless, hmin, hearly⟩
        · refine Or.inr ⟨0, Nat.succ_pos l.length, ?_, ?_, ?_, ?_⟩
          · rw [hstep, heq]; rfl
          · rw [hstep, heq]; exact hlt
          · intro kv2 hkv2
            rw [hstep, heq]
            rcases List.mem_cons.mp hkv2 with h | h
            · rw [h]
            · exact hmin kv2 h
          · intro j hj; cases hj
        · refine Or.inr ⟨i + 1, Nat.succ_lt_succ hi, ?_, ?_, ?_, ?_⟩
          · rw [hstep, heq]; rfl
          · rw [hstep]; exact lt_trans hless hlt
          · intro kv2 hkv2
            rw [hstep]
            rcases List.mem_cons.mp hkv2 with h | h
            · rw [h]; exact le_of_lt hless
            · exact hmin kv2 h
          · intro j hj
            rw [hstep]
            cases j with
            | zero => exact hless
            | succ j2 => exact hearly j2 (Nat.lt_of_succ_lt_succ hj)
      · have hge : |b.1 - t| ≤ |kv.1 - t| := not_lt.mp hlt
        have hstep : argminKey t b (kv :: l) = argminKey t b l := by
          simp [argminKey, hlt]
        rcases ih b with ⟨heq, hmin⟩ | ⟨i, hi, heq, hless, hmin, hearly⟩
        · refine Or.inl ⟨by rw [hstep, heq], ?_⟩
          intro kv2 hkv2
          rcases List.mem_cons.mp hkv2 with h | h
          · rw [h]; exact hge
          · exact hmin kv2 h
        · refine Or.inr ⟨i + 1, Nat.succ_lt_succ hi, ?_, ?_, ?_, ?_⟩
          · rw [hstep, heq]; rfl
          · rw [hstep]; exact hless
          · intro kv2 hkv2
            rw [hstep]
            rcases List.mem_cons.mp hkv2 with h | h
            · rw [h]; exact le_of_lt (lt_of_lt_of_le hless hge)
            · exact hmin kv2 h
          · intro j hj
            rw [hstep]
            cases j with
            | zero => exact lt_of_lt_of_le hless hge
            | succ j2 => exact hearly j2 (Nat.lt_of_succ_lt_succ hj)

/-!
Claim theorems.
-/

/-- C7: valueAt signals the lookup failure (the none result, Python None,
distinct from every ordinary table value) exactly when the queried
parameter's tmaxfrac table is empty; the failure is local to the query,
which reads the parameter and touches nothing else. -/
theorem c7_empty_table_lookup_error (p : SOAParameter) (t : ℚ) :
    p.get_value_at_tmaxfrac t = none ↔ p.values = [] := by
  constructor
  · intro h
    cases hv : p.values with
    | nil => rfl
    | cons kv rest =>
        exfalso
        simp only [SOAParameter.get_value_at_tmaxfrac, hv] at h
        cases halk : alookup t (kv :: rest) <;> simp [halk] at h
  · intro h
    simp [SOAParameter.get_value_at_tmaxfrac, h, alookup]

/-- C6: a threshold that resolves to the UNRESTRICTED sentinel "no-limit"
satisfies every query: the static validate_value passes for any observed
value, and neither transient checker (TransientTimeLimit.is_violation and
TransientConstraint.validate_transient) ever reports a violation for a
"no-limit" threshold, whatever the applied value, duration and window. -/
theorem c6_unrestricted_satisfies (p : SOAParameter) (t obs : ℚ) (s : String)
    (hres : p.get_value_at_tmaxfrac t = some (.str s)) (hs : strLower s = "no-limit")
    (l : TransientTimeLimit) (hl : l.voltage_limit = .str s)
    (c : TransientConstraint) (hc : c.voltage_limit = .str s)
    (applied duration total : ℚ) :
    p.validate_value obs t = true ∧
    l.is_violation applied duration total = false ∧
    c.validate_transient applied duration total = none := by
  refine ⟨?_, ?_, ?_⟩
  · simp [SOAParameter.validate_value, SOAParameter.is_no_limit, isNoLimitOpt, hres, hs]
  · simp [TransientTimeLimit.is_violation, hl, hs]
  · simp [TransientConstraint.validate_transient, hc, hs]

/-- C2: for a transient constraint with a numeric threshold and
max_time_fraction 0, any applied value at or above the threshold is an
immediate, unconditional violation — whatever the (arbitrarily small)
duration and total window — and the profile validator reports it for every
such sample of a profile. -/
theorem c2_zero_fraction_immediate_violation
    (p : TransientAwareParameter) (c : TransientConstraint) (q : ℚ)
    (hq : c.voltage_limit = .num q) (hfrac : c.max_time_fraction = 0)
    (hc : c ∈ p.transient_constraints)
    (vp : List (ℚ × ℚ × ℚ)) (s : ℚ × ℚ × ℚ) (hs : s ∈ vp) (happ : q ≤ s.1)
    (duration total : ℚ) :
    c.validate_transient s.1 duration total = some (.critical q) ∧
    (⟨p.name, .critical q⟩ : NamedTViolation) ∈ p.validate_transient_profile vp := by
  have hval : ∀ d tt : ℚ, c.validate_transient s.1 d tt = some (.critical q) := by
    intro d tt
    simp [TransientConstraint.validate_transient, hq, hfrac, not_lt.mpr happ]
  refine ⟨hval duration total, ?_⟩
  have hne : vp ≠ [] := List.ne_nil_of_mem hs
  have hprof : p.validate_transient_profile vp =
      (vp.map (sampleViolations p (profileTotalTime vp))).flatten := by
    cases vp with
    | nil => exact absurd rfl hne
    | cons a rest => rfl
  rw [hprof]
  refine List.mem_flatten.mpr ⟨sampleViolations p (profileTotalTime vp) s, ?_, ?_⟩
  · exact List.mem_map_of_mem _ hs
  · refine List.mem_filterMap.mpr ⟨c, hc, ?_⟩
    rw [hval]
    rfl

/-- C10: an empty transient profile yields an empty violation list
(returned before total_time is ever computed), so a transient simulation
check whose supplied profiles are all empty is reported compliant. -/
theorem c10_empty_profiles_compliant
    (p : TransientAwareParameter)
    (e : TransientSOAEngine) (key : String) (dev : TransientDevice)
    (hdev : alookup key e.devices = some dev)
    (profiles : List (String × List (ℚ × ℚ × ℚ)))
    (hempty : ∀ pr ∈ profiles, pr.2 = []) :
    p.validate_transient_profile [] = [] ∧
    e.validate_transient_simulation key profiles = .ok ⟨key, [], true, 0⟩ := by
  refine ⟨rfl, ?_⟩
  have hall : ∀ l ∈ profiles.map (fun pr =>
      match alookup pr.1 dev.parameters with
      | some p2 => p2.validate_transient_profile pr.2
      | none => []), l = [] := by
    intro l hl
    rcases List.mem_map.mp hl with ⟨pr, hpr, heq⟩
    rw [← heq]
    show (match alookup pr.1 dev.parameters with
          | some p2 => p2.validate_transient_profile pr.2
          | none => []) = []
    rw [hempty pr hpr]
    split <;> rfl
  simp only [TransientSOAEngine.validate_transient_simulation, hdev]
  rw [flatten_of_all_nil _ hall]
  rfl


/-- The nearest entry selected by argminKey over a nonempty table is the
first entry of minimal absolute key distance, in table order. -/
theorem firstMin_of_argmin (t : ℚ) (kv : ℚ × SOAValue) (rest : List (ℚ × SOAValue)) :
    IsFirstMin t (kv :: rest) (argminKey t kv rest) := by
  rcases argminKey_spec t rest kv with ⟨heq, hmin⟩ | ⟨i, hi, heq, hless, hmin, hearly⟩
  · refine ⟨0, Nat.succ_pos rest.length, by rw [heq]; rfl, ?_, ?_⟩
    · intro kv2 hkv2
      rcases List.mem_cons.mp hkv2 with h | h
      · rw [heq, h]
      · rw [heq]
        exact hmin kv2 h
    · intro j hj
      exact absurd hj (Nat.not_lt_zero j)
  · refine ⟨i + 1, Nat.succ_lt_succ hi, heq, ?_, ?_⟩
    · intro kv2 hkv2
      rcases List.mem_cons.mp hkv2 with h | h
      · rw [h]
        exact le_of_lt hless
      · exact hmin kv2 h
    · intro j hj
      cases j with
      | zero => exact hless
      | succ j2 => exact hearly j2 (Nat.lt_of_succ_lt_succ hj)

/-- C3: on a non-empty table, valueAt returns the exact entry whenever the
query is a key of the table, and otherwise the entry whose key has minimal
absolute distance to the query, with ties broken by table order — the
first entry wins. -/
theorem c3_nearest_level_lookup (p : SOAParameter) (t : ℚ) (hne : p.values ≠ []) :
    (∀ v, alookup t p.values = some v → p.get_value_at_tmaxfrac t = some v) ∧
    (alookup t p.values = none →
      ∃ kv, IsFirstMin t p.values kv ∧ p.get_value_at_tmaxfrac t = some kv.2) := by
  constructor
  · intro v hv
    simp [SOAParameter.get_value_at_tmaxfrac, hv]
  · intro hnone
    obtain ⟨kv, rest, hv⟩ := List.exists_cons_of_ne_nil hne
    rw [hv] at hnone
    refine ⟨argminKey t kv rest, ?_, ?_⟩
    · rw [hv]
      exact firstMin_of_argmin t kv rest
    · simp [SOAParameter.get_value_at_tmaxfrac, hv, hnone]

/-- C1: on a non-empty profile the validator checks every sample against
every constraint independently, each against the full allowed budget
maxTimeFraction times the profile total time (never a sum across samples);
the total time is the maximum interval end over the profile; and for a
numeric-threshold constraint with positive maxTimeFraction, a sample at or
above the threshold is reported exactly when its duration strictly exceeds
the budget — a duration equal to the budget is compliant. -/
theorem c1_per_sample_time_budget
    (p : TransientAwareParameter) (vp : List (ℚ × ℚ × ℚ)) (hne : vp ≠ [])
    (c : TransientConstraint) (q : ℚ) (hq : c.voltage_limit = .num q)
    (hfrac : 0 < c.max_time_fraction) (s : ℚ × ℚ × ℚ) (hs : q ≤ s.1) :
    p.validate_transient_profile vp =
        (vp.map (sampleViolations p (profileTotalTime vp))).flatten ∧
    (∀ s2 ∈ vp, s2.2.2 ≤ profileTotalTime vp) ∧
    (∃ s2 ∈ vp, profileTotalTime vp = s2.2.2) ∧
    ((c.validate_transient s.1 (s.2.2 - s.2.1) (profileTotalTime vp)).isSome ↔
        c.max_time_fraction * profileTotalTime vp < s.2.2 - s.2.1) := by
  obtain ⟨x, xs, hv⟩ := List.exists_cons_of_ne_nil hne
  subst hv
  refine ⟨rfl, ?_, ?_, ?_⟩
  · obtain ⟨h1, h2, h3⟩ := foldlMax_spec xs x.2.2
    intro s2 hs2
    rcases List.mem_cons.mp hs2 with h | h
    · rw [h]
      exact h1
    · exact h2 s2 h
  · obtain ⟨h1, h2, h3⟩ := foldlMax_spec xs x.2.2
    rcases h3 with h | ⟨s2, hs2, heq⟩
    · exact ⟨x, List.mem_cons_self x xs, h⟩
    · exact ⟨s2, List.mem_cons_of_mem x hs2, heq⟩
  · rcases lt_or_ge (c.max_time_fraction * profileTotalTime (x :: xs)) (s.2.2 - s.2.1)
      with h3 | h3
    · simp [TransientConstraint.validate_transient, hq, not_lt.mpr hs, ne_of_gt hfrac, h3]
    · simp [TransientConstraint.validate_transient, hq, not_lt.mpr hs, ne_of_gt hfrac,
            not_lt.mpr h3]

/-- C9: with the device present, a validation report over N scenarios is
produced with exactly N results in input order (result i is the
check_soa_compliance outcome of scenario i, tagged scenario_id i), the
summary's total is N, passed counts exactly the compliant results and
passed + failed = N. -/
theorem c9_report_shape (e : SOARulesEngine) (device_key : String) (d : DeviceRules)
    (hdev : alookup device_key e.devices = some d) (scenarios : List Scenario) :
    ∃ rep, e.generate_validation_report device_key scenarios = .ok rep ∧
      rep.summary.total_scenarios = scenarios.length ∧
      rep.results.length = scenarios.length ∧
      rep.summary.passed + rep.summary.failed = scenarios.length ∧
      rep.summary.passed = (rep.results.filter (fun r => r.result.compliant)).length ∧
      ∀ i, ∀ hi : i < scenarios.length, ∀ hri : i < rep.results.length,
        rep.results.get ⟨i, hri⟩ = scenarioStep device_key d (i, scenarios.get ⟨i, hi⟩) ∧
        (rep.results.get ⟨i, hri⟩).scenario_id = i ∧
        e.check_soa_compliance device_key ((scenarios.get ⟨i, hi⟩).tmaxfrac.getD (1 / 10))
            (scenarios.get ⟨i, hi⟩).observations = .ok (rep.results.get ⟨i, hri⟩).result := by
  refine ⟨⟨device_key,
     ⟨scenarios.length,
      (((withIdx 0 scenarios).map (scenarioStep device_key d)).filter
        (fun r => r.result.compliant)).length,
      (((withIdx 0 scenarios).map (scenarioStep device_key d)).filter
        (fun r => !r.result.compliant)).length⟩,
     (withIdx 0 scenarios).map (scenarioStep device_key d)⟩, ?_, rfl, ?_, ?_, rfl, ?_⟩
  · simp [SOARulesEngine.generate_validation_report, hdev]
  · rw [List.length_map, length_withIdx]
  · rw [length_filter_add_length_filter_not, List.length_map, length_withIdx]
  · intro i hi hri
    have h1 : i < (withIdx 0 scenarios).length := by
      rw [length_withIdx]
      exact hi
    have hget : ((withIdx 0 scenarios).map (scenarioStep device_key d)).get ⟨i, hri⟩ =
        scenarioStep device_key d (i, scenarios.get ⟨i, hi⟩) := by
      have h3 : ((withIdx 0 scenarios).map (scenarioStep device_key d)).get ⟨i, hri⟩ =
          scenarioStep device_key d ((withIdx 0 scenarios).get ⟨i, h1⟩) := by
        simp [List.get_eq_getElem, List.getElem_map]
      rw [h3, get_withIdx scenarios 0 i hi h1, Nat.zero_add]
    refine ⟨hget, ?_, ?_⟩
    · rw [hget]
      rfl
    · rw [hget]
      simp [SOARulesEngine.check_soa_compliance, hdev, scenarioStep]

/-- C4 (amended): the canonical-document round trip on a registry with
distinct device keys reproduces every device under the same key with the
same device type, subcategory, tmaxfrac levels, parameter names and every
parameter field (so valueAt agrees at every level), but device metadata
(never written by export_to_json) comes back empty. -/
theorem c4_roundtrip_preserves_all_but_metadata (e : SOARulesEngine)
    (hnd : (e.devices.map Prod.fst).Nodup) :
    SOARulesEngine.load_from_json SOARulesEngine.init e.export_to_json =
      .ok ⟨e.devices.map (fun dv => (dv.1, stripDevice dv.2)), e.global_config⟩ := by
  have h0 : SOARulesEngine.load_from_json SOARulesEngine.init e.export_to_json =
      loadDevices ⟨[], e.global_config⟩
        (e.devices.map (fun dv => (dv.1, exportDevice dv.2))) := rfl
  rw [h0, loadDevices_export e.global_config e.devices []
    hnd (by intro kv hkv kv2 h2; cases h2)]
  simp

/-- C5 (amended): a canonical document missing the devices mapping, a
device record missing its parameters mapping, and a parameter record
missing values.multi_level are all tolerated silently — the load succeeds
with the missing part defaulted to empty (no devices / no parameters /
empty table) instead of failing with a format error. -/
theorem c5_missing_fields_silently_defaulted
    (e : SOARulesEngine) (ver tech : Option String) (gc : Option GlobalConfig)
    (k pn : String) (dd : DeviceDoc) (pd : ParamDoc)
    (hdd : dd.parameters = none) (hp1 : pd.multi_level = none)
    (hp2 : pd.severity = none) (hp3 : pd.ptype = none) :
    SOARulesEngine.load_from_json e ⟨some ⟨ver, tech, gc, none⟩⟩ =
      .ok (applyGlobalConfig e gc) ∧
    load_device_from_dict e k dd =
      .ok (e.add_device k ⟨dd.device_type.getD "unknown", dd.subcategory.getD "general",
            (dd.multi_level.bind MultiLevelDoc.tmaxfrac_levels).getD [], [],
            dd.metadata.getD []⟩) ∧
    loadParam pn pd =
      .ok ⟨pd.name.getD pn, .high, .general, pd.unit.getD "", [], [],
           pd.description.getD ""⟩ := by
  refine ⟨rfl, ?_, ?_⟩
  · simp [load_device_from_dict, hdd, loadParams]
  · simp [loadParam, hp1, hp2, hp3, severityOfStr, ptypeOfStr]

/-- C8 (amended): a resolved threshold that is neither numeric nor the
UNRESTRICTED sentinel passes validation by default (fail-open), and the
compliance result reports it as plain full compliance — compliant true,
no violations, no_limit false — with no flag distinguishing the
unvalidatable condition; only the raw threshold value echoed inside the
limits map differs from a genuinely compliant numeric check. -/
theorem c8_fail_open_reported_as_compliant (p : SOAParameter) (t obs : ℚ)
    (hnl : isNoLimitOpt (p.get_value_at_tmaxfrac t) = false)
    (hnn : tryFloat (p.get_value_at_tmaxfrac t) = none)
    (e : SOARulesEngine) (key pn : String) (d : DeviceRules)
    (hdev : alookup key e.devices = some d) (hpar : d.parameters = [(pn, p)]) :
    p.validate_value obs t = true ∧
    e.check_soa_compliance key t [(pn, obs)] =
      .ok ⟨key, t, [(pn, obs)], [], true,
           [(pn, ⟨p.get_value_at_tmaxfrac t, p.unit, p.severity, p.param_type, false⟩)]⟩ := by
  have hvv : p.validate_value obs t = true := by
    simp [SOAParameter.validate_value, SOAParameter.is_no_limit, hnl, hnn]
  refine ⟨hvv, ?_⟩
  simp [SOARulesEngine.check_soa_compliance, hdev, DeviceRules.validate_conditions, hpar,
        DeviceRules.get_parameter_limits, hvv, SOAParameter.is_no_limit, hnl, alookup]

/-!
Ground instances.  The kernel computes with the core Rat operations, but
Mathlib marks them irreducible for elaboration; the concrete witnesses and
counterexamples below evaluate rule tables by decide, so the arithmetic
operations are restored to normal reducibility from here on.  The general
theorems above are unaffected.
-/

set_option allowUnsafeReducibility true

attribute [semireducible] Rat.add Rat.sub Rat.mul Rat.inv Rat.div Rat.blt Rat.neg

/-- C1 witness: the 1.71 V / 1% constraint over a 100 µs window with a
1.75 V sample of duration 2 µs: the per-sample decomposition holds, the
total time is the maximal interval end, and the sample violates exactly
because 2 µs exceeds the 1 µs budget. -/
theorem c1_witness :
    c1p.validate_transient_profile c1vp =
        (c1vp.map (sampleViolations c1p (profileTotalTime c1vp))).flatten ∧
    (∀ s2 ∈ c1vp, s2.2.2 ≤ profileTotalTime c1vp) ∧
    (∃ s2 ∈ c1vp, profileTotalTime c1vp = s2.2.2) ∧
    ((c1c.validate_transient (7 / 4) ((2 : ℚ) - 0) (profileTotalTime c1vp)).isSome ↔
        c1c.max_time_fraction * profileTotalTime c1vp < (2 : ℚ) - 0) :=
  c1_per_sample_time_budget c1p c1vp (by decide) c1c (171 / 100) rfl (by decide)
    (7 / 4, 0, 2) (by decide)

/-- C3 witness: the spec's example table 0.1 → 5, 0.01 → 6, 0.0 → 7 queried
at 0.05 resolves through the nearest-key rule to 6, the entry at 0.01. -/
theorem c3_witness :
    ((∀ v, alookup (1 / 20 : ℚ) c3param.values = some v →
        c3param.get_value_at_tmaxfrac (1 / 20) = some v) ∧
     (alookup (1 / 20 : ℚ) c3param.values = none →
        ∃ kv, IsFirstMin (1 / 20) c3param.values kv ∧
          c3param.get_value_at_tmaxfrac (1 / 20) = some kv.2)) ∧
    c3param.get_value_at_tmaxfrac (1 / 20) = some (.num 6) :=
  ⟨c3_nearest_level_lookup c3param (1 / 20) (by decide), by decide⟩

/-- C4 counterexample: a registry whose device carries non-empty metadata
does not round-trip — the reloaded device has empty metadata, so the
reloaded registry differs from the original. -/
theorem c4_counterexample :
    c4dev.metadata = [("source", "excel_row_12")] ∧
    SOARulesEngine.load_from_json SOARulesEngine.init c4eng.export_to_json =
      .ok ⟨[("nmos_core", { c4dev with metadata := [] })], c4eng.global_config⟩ ∧
    ¬ (SOARulesEngine.load_from_json SOARulesEngine.init c4eng.export_to_json =
        .ok c4eng) := by decide

/-- C4 witness: the amended round trip on the concrete one-device registry. -/
theorem c4_witness :
    SOARulesEngine.load_from_json SOARulesEngine.init c4eng.export_to_json =
      .ok ⟨c4eng.devices.map (fun dv => (dv.1, stripDevice dv.2)), c4eng.global_config⟩ :=
  c4_roundtrip_preserves_all_but_metadata c4eng (by decide)

/-- C5 counterexample: documents missing devices, parameters or
values.multi_level all load without any error, contradicting the claimed
load-time format failure. -/
theorem c5_counterexample :
    SOARulesEngine.load_from_json SOARulesEngine.init c5docNoDevices =
      .ok SOARulesEngine.init ∧
    SOARulesEngine.load_from_json SOARulesEngine.init c5docNoParams =
      .ok ⟨[("d", ⟨"mos_transistor", "symmetric_on_off", [], [], []⟩)],
           SOARulesEngine.init.global_config⟩ ∧
    SOARulesEngine.load_from_json SOARulesEngine.init c5docNoML =
      .ok ⟨[("d", ⟨"mos_transistor", "symmetric_on_off", [],
            [("vhigh_ds_on", ⟨"vhigh_ds_on", .high, .general, "V", [], [], ""⟩)], []⟩)],
           SOARulesEngine.init.global_config⟩ := by decide

/-- C5 witness: the amended silent-defaulting behaviour at the concrete
documents. -/
theorem c5_witness :
    (SOARulesEngine.load_from_json SOARulesEngine.init
        ⟨some ⟨some "1.0", some "smos10hv", none, none⟩⟩ =
      .ok (applyGlobalConfig SOARulesEngine.init none)) ∧
    (load_device_from_dict SOARulesEngine.init "d" c5ddNoParams =
      .ok (SOARulesEngine.init.add_device "d"
        ⟨c5ddNoParams.device_type.getD "unknown", c5ddNoParams.subcategory.getD "general",
         (c5ddNoParams.multi_level.bind MultiLevelDoc.tmaxfrac_levels).getD [], [],
         c5ddNoParams.metadata.getD []⟩)) ∧
    (loadParam "vhigh_ds_on" c5pdNoML =
      .ok ⟨c5pdNoML.name.getD "vhigh_ds_on", .high, .general, c5pdNoML.unit.getD "",
           [], [], c5pdNoML.description.getD ""⟩) :=
  c5_missing_fields_silently_defaulted SOARulesEngine.init (some "1.0") (some "smos10hv")
    none "d" "vhigh_ds_on" c5ddNoParams c5pdNoML rfl rfl rfl rfl

/-- C8 counterexample: with a resolved threshold "tbd" the compliance
result reads compliant, no violations, and carries exactly the same
boolean indicators as a genuinely compliant numeric check — there is no
flag distinguishing the unvalidatable condition. -/
theorem c8_counterexample :
    isNoLimitOpt (c8pU.get_value_at_tmaxfrac 0) = false ∧
    tryFloat (c8pU.get_value_at_tmaxfrac 0) = none ∧
    (c8eU.check_soa_compliance "d" 0 [("p", 5)]).map ComplianceResult.compliant =
      .ok true ∧
    (c8eU.check_soa_compliance "d" 0 [("p", 5)]).map ComplianceResult.violations =
      .ok [] ∧
    (c8eU.check_soa_compliance "d" 0 [("p", 5)]).map resultFlags =
      (c8eN.check_soa_compliance "d" 0 [("p", 5)]).map resultFlags := by decide

/-- C8 witness: the amended fail-open behaviour at the concrete "tbd"
parameter. -/
theorem c8_witness :
    c8pU.validate_value 5 0 = true ∧
    c8eU.check_soa_compliance "d" 0 [("p", 5)] =
      .ok ⟨"d", 0, [("p", 5)], [], true,
           [("p", ⟨c8pU.get_value_at_tmaxfrac 0, c8pU.unit, c8pU.severity,
                   c8pU.param_type, false⟩)]⟩ :=
  c8_fail_open_reported_as_compliant c8pU 0 5 (by decide) (by decide) c8eU "d" "p" c8dU
    (by decide) rfl

/-- C9 witness: the report over one passing and one failing scenario. -/
theorem c9_witness :
    ∃ rep, c9eng.generate_validation_report "nmos_core" c9scenarios = .ok rep ∧
      rep.summary.total_scenarios = c9scenarios.length ∧
      rep.results.length = c9scenarios.length ∧
      rep.summary.passed + rep.summary.failed = c9scenarios.length ∧
      rep.summary.passed = (rep.results.filter (fun r => r.result.compliant)).length ∧
      ∀ i, ∀ hi : i < c9scenarios.length, ∀ hri : i < rep.results.length,
        rep.results.get ⟨i, hri⟩ =
          scenarioStep "nmos_core" c9dev (i, c9scenarios.get ⟨i, hi⟩) ∧
        (rep.results.get ⟨i, hri⟩).scenario_id = i ∧
        c9eng.check_soa_compliance "nmos_core"
            ((c9scenarios.get ⟨i, hi⟩).tmaxfrac.getD (1 / 10))
            (c9scenarios.get ⟨i, hi⟩).observations = .ok (rep.results.get ⟨i, hri⟩).result :=
  c9_report_shape c9eng "nmos_core" c9dev (by decide) c9scenarios

/-- C6 witness: a "no-limit" threshold passes an extreme negative observed
value and never yields a transient violation. -/
theorem c6_witness :
    c6param.validate_value (-999999) 0 = true ∧
    (TransientTimeLimit.mk (.str "no-limit") 0 "").is_violation 999999 1 1 = false ∧
    (TransientConstraint.mk (.str "no-limit") 0 "").validate_transient 999999 1 1 = none :=
  c6_unrestricted_satisfies c6param 0 (-999999) "no-limit" (by decide) (by decide)
    ⟨.str "no-limit", 0, ""⟩ rfl ⟨.str "no-limit", 0, ""⟩ rfl 999999 1 1

/-- C2 witness: the spec's example — threshold 1.838 V at tmaxfrac 0, a
sample at 1.85 V for the 0.1 µs slice of a 100 µs window is a violation. -/
theorem c2_witness :
    c2c.validate_transient (37 / 20) (1 / 10) 100 =
      some (.critical (1838 / 1000)) ∧
    (⟨"vhigh_ds_on", .critical (1838 / 1000)⟩ : NamedTViolation) ∈
      c2p.validate_transient_profile c2vp :=
  c2_zero_fraction_immediate_violation c2p c2c (1838 / 1000) rfl rfl (by decide)
    c2vp (37 / 20, 0, 1 / 10) (by decide) (by norm_num) (1 / 10) 100

/-- C10 witness: two empty profiles (one naming a parameter unknown to the
device) validate as compliant with no violations. -/
theorem c10_witness :
    c10p.validate_transient_profile [] = [] ∧
    c10eng.validate_transient_simulation "nmos_core"
        [("vhigh_ds_on", []), ("vhigh_ds_off", [])] =
      .ok ⟨"nmos_core", [], true, 0⟩ :=
  c10_empty_profiles_compliant c10p c10eng "nmos_core" ⟨[("vhigh_ds_on", c10p)]⟩
    (by decide) [("vhigh_ds_on", []), ("vhigh_ds_off", [])] (by decide)
